import Mathlib

/-!
Verification of the MQTT-to-Telegram bridge (src/mqtt_telegram_bridge.py).

The development shallowly embeds the decision logic of the script:
the UTF-8 decode of the inbound payload, the JSON-object field accesses
with defaults, the status dispatch of `on_message`, the delivery function
`send_telegram_message` with its single plain-text retry, and the startup
validation in `main`.  External effects (the HTTP POST, `json.loads`,
the current time) are passed in as oracles, and each handler run returns
a trace of the delivery calls it made together with the branch it took.
-/

namespace MqttTelegramBridge

/-- A continuation byte of a UTF-8 sequence: 0x80..0xBF. -/
def isCont (b : Nat) : Bool := 0x80 ≤ b && b ≤ 0xBF

/-- Strict UTF-8 decoding of a byte list into characters, rejecting
overlong encodings, surrogates and codepoints above 0x10FFFF, as
Python `bytes.decode("utf-8")` does; `none` models `UnicodeDecodeError`. -/
def utf8DecodeAux : List Nat → Option (List Char)
  | [] => some []
  | b :: bs =>
    if b ≤ 0x7F then
      (utf8DecodeAux bs).map (fun cs => Char.ofNat b :: cs)
    else if 0xC2 ≤ b ∧ b ≤ 0xDF then
      match bs with
      | b1 :: bs1 =>
        if isCont b1 then
          (utf8DecodeAux bs1).map
            (fun cs => Char.ofNat ((b - 0xC0) * 0x40 + (b1 - 0x80)) :: cs)
        else none
      | [] => none
    else if 0xE0 ≤ b ∧ b ≤ 0xEF then
      match bs with
      | b1 :: b2 :: bs2 =>
        if (if b = 0xE0 then 0xA0 else 0x80) ≤ b1 ∧
            b1 ≤ (if b = 0xED then 0x9F else 0xBF) ∧ isCont b2 then
          (utf8DecodeAux bs2).map
            (fun cs => Char.ofNat
              ((b - 0xE0) * 0x1000 + (b1 - 0x80) * 0x40 + (b2 - 0x80)) :: cs)
        else none
      | _ => none
    else if 0xF0 ≤ b ∧ b ≤ 0xF4 then
      match bs with
      | b1 :: b2 :: b3 :: bs3 =>
        if (if b = 0xF0 then 0x90 else 0x80) ≤ b1 ∧
            b1 ≤ (if b = 0xF4 then 0x8F else 0xBF) ∧ isCont b2 ∧ isCont b3 then
          (utf8DecodeAux bs3).map
            (fun cs => Char.ofNat
              ((b - 0xF0) * 0x40000 + (b1 - 0x80) * 0x1000 +
                (b2 - 0x80) * 0x40 + (b3 - 0x80)) :: cs)
        else none
      | _ => none
    else none

/-- `msg.payload.decode("utf-8")` (line 216 of the source). -/
def utf8Decode (bs : List Nat) : Option String :=
  (utf8DecodeAux bs).map String.mk

/-- The values `json.loads` can produce (Python objects of a decoded
JSON document).  A JSON object is kept as its key/value list. -/
inductive PyVal where
  | str (s : String)
  | int (n : Int)
  | bool (b : Bool)
  | null
  | list (xs : List PyVal)
  | obj (fields : List (String × PyVal))

mutual

/-- Structural equality test on `PyVal`. -/
def pvBeq : PyVal → PyVal → Bool
  | .str a, .str b => a == b
  | .int a, .int b => a == b
  | .bool a, .bool b => a == b
  | .null, .null => true
  | .list xs, .list ys => pvBeqList xs ys
  | .obj xs, .obj ys => pvBeqObj xs ys
  | _, _ => false

/-- Structural equality test on lists of `PyVal`. -/
def pvBeqList : List PyVal → List PyVal → Bool
  | [], [] => true
  | x :: xs, y :: ys => pvBeq x y && pvBeqList xs ys
  | _, _ => false

/-- Structural equality test on object entry lists. -/
def pvBeqObj : List (String × PyVal) → List (String × PyVal) → Bool
  | [], [] => true
  | (k, v) :: xs, (l, w) :: ys => k == l && pvBeq v w && pvBeqObj xs ys
  | _, _ => false

end

mutual

/-- `pvBeq` decides equality of `PyVal`. -/
def pvBeq_iff : ∀ a b : PyVal, pvBeq a b = true ↔ a = b
  | .str _, .str _ => by simp [pvBeq]
  | .int _, .int _ => by simp [pvBeq]
  | .bool _, .bool _ => by simp [pvBeq]
  | .null, .null => by simp [pvBeq]
  | .list xs, .list ys => by simpa [pvBeq] using pvBeqList_iff xs ys
  | .obj xs, .obj ys => by simpa [pvBeq] using pvBeqObj_iff xs ys
  | .str _, .int _ => by simp [pvBeq]
  | .str _, .bool _ => by simp [pvBeq]
  | .str _, .null => by simp [pvBeq]
  | .str _, .list _ => by simp [pvBeq]
  | .str _, .obj _ => by simp [pvBeq]
  | .int _, .str _ => by simp [pvBeq]
  | .int _, .bool _ => by simp [pvBeq]
  | .int _, .null => by simp [pvBeq]
  | .int _, .list _ => by simp [pvBeq]
  | .int _, .obj _ => by simp [pvBeq]
  | .bool _, .str _ => by simp [pvBeq]
  | .bool _, .int _ => by simp [pvBeq]
  | .bool _, .null => by simp [pvBeq]
  | .bool _, .list _ => by simp [pvBeq]
  | .bool _, .obj _ => by simp [pvBeq]
  | .null, .str _ => by simp [pvBeq]
  | .null, .int _ => by simp [pvBeq]
  | .null, .bool _ => by simp [pvBeq]
  | .null, .list _ => by simp [pvBeq]
  | .null, .obj _ => by simp [pvBeq]
  | .list _, .str _ => by simp [pvBeq]
  | .list _, .int _ => by simp [pvBeq]
  | .list _, .bool _ => by simp [pvBeq]
  | .list _, .null => by simp [pvBeq]
  | .list _, .obj _ => by simp [pvBeq]
  | .obj _, .str _ => by simp [pvBeq]
  | .obj _, .int _ => by simp [pvBeq]
  | .obj _, .bool _ => by simp [pvBeq]
  | .obj _, .null => by simp [pvBeq]
  | .obj _, .list _ => by simp [pvBeq]

/-- `pvBeqList` decides equality of lists of `PyVal`. -/
def pvBeqList_iff : ∀ xs ys : List PyVal, pvBeqList xs ys = true ↔ xs = ys
  | [], [] => by simp [pvBeqList]
  | [], _ :: _ => by simp [pvBeqList]
  | _ :: _, [] => by simp [pvBeqList]
  | x :: xs, y :: ys => by
    simp only [pvBeqList, Bool.and_eq_true, List.cons.injEq]
    exact and_congr (pvBeq_iff x y) (pvBeqList_iff xs ys)

/-- `pvBeqObj` decides equality of object entry lists. -/
def pvBeqObj_iff : ∀ xs ys : List (String × PyVal), pvBeqObj xs ys = true ↔ xs = ys
  | [], [] => by simp [pvBeqObj]
  | [], _ :: _ => by simp [pvBeqObj]
  | _ :: _, [] => by simp [pvBeqObj]
  | (k, v) :: xs, (l, w) :: ys => by
    simp only [pvBeqObj, Bool.and_eq_true, List.cons.injEq, Prod.mk.injEq,
      beq_iff_eq, and_assoc]
    exact and_congr Iff.rfl (and_congr (pvBeq_iff v w) (pvBeqObj_iff xs ys))

end

instance : DecidableEq PyVal := fun a b => decidable_of_iff _ (pvBeq_iff a b)

/-- Python `data.get(key, default)` on a decoded JSON object. -/
def pyGet (fields : List (String × PyVal)) (key : String) (dflt : PyVal) : PyVal :=
  match fields.find? (fun kv => kv.1 = key) with
  | some kv => kv.2
  | none => dflt

/-- Python `value == "literal"`: true exactly when the value is that
very string (comparison of a non-string against a string is `False`). -/
def pyEqStr (v : PyVal) (s : String) : Bool :=
  match v with
  | .str t => t = s
  | _ => false

/-- Python truthiness of the `parse_mode` argument (`if parse_mode:`):
`None` and the empty string are falsy. -/
def pyTruthy : Option String → Bool
  | none => false
  | some s => s != ""

/-- The single-quote character Python uses when it reprs a string. -/
def pyQuote : String := String.singleton (Char.ofNat 39)

mutual

/-- Python `repr` of a decoded JSON value (string escaping inside
reprs is not reproduced; no claim depends on it). -/
def pyRepr : PyVal → String
  | .str s => pyQuote ++ s ++ pyQuote
  | .int n => toString n
  | .bool b => if b then "True" else "False"
  | .null => "None"
  | .list xs => "[" ++ pyReprList xs ++ "]"
  | .obj kvs => "\x7b" ++ pyReprFields kvs ++ "\x7d"

/-- Comma-joined reprs of a list of values. -/
def pyReprList : List PyVal → String
  | [] => ""
  | [x] => pyRepr x
  | x :: xs => pyRepr x ++ ", " ++ pyReprList xs

/-- Comma-joined reprs of the entries of an object. -/
def pyReprFields : List (String × PyVal) → String
  | [] => ""
  | [(k, v)] => pyQuote ++ k ++ pyQuote ++ ": " ++ pyRepr v
  | (k, v) :: xs =>
    pyQuote ++ k ++ pyQuote ++ ": " ++ pyRepr v ++ ", " ++ pyReprFields xs

end

/-- Python `str()` as used by f-string interpolation: a string renders
as itself, every other value via its repr. -/
def pyStr : PyVal → String
  | .str s => s
  | v => pyRepr v

/-- `MONITOR_ALIVE = True` (line 60 of the source). -/
def MONITOR_ALIVE : Bool := true

/-- `NOTIFY_ONLINE = True` (line 61 of the source). -/
def NOTIFY_ONLINE : Bool := true

/-- The module-level configuration the handler reads. -/
structure Config where
  statusTopic : String
  aliveTopic : String
  monitorAlive : Bool
  notifyOnline : Bool
  chatId : String
  deriving DecidableEq

/-- Outcome of one `requests.post` + `raise_for_status()` pair:
success, a `requests.exceptions.RequestException` (any transport-level
failure, including non-2xx), or any other exception. -/
inductive PostOutcome where
  | ok
  | reqExn
  | otherExn
  deriving DecidableEq

/-- The JSON body of one HTTP POST to the Telegram API: the key
`parse_mode` is present only when the field below is `some`. -/
structure TgPayload where
  chat_id : String
  text : String
  parse_mode : Option String
  deriving DecidableEq

/-- How a call of `send_telegram_message` ends: a boolean return, or an
exception escaping it (only a non-RequestException from the first POST
can escape: the retry is guarded by a bare `except`). -/
inductive SendOutcome where
  | returned (b : Bool)
  | raised
  deriving DecidableEq

/-- `send_telegram_message(message, parse_mode)` (lines 67..104):
posts the message, and on a `RequestException` retries exactly once
with the `parse_mode` key removed, swallowing every retry failure.
Returns the list of POSTs made and how the call ended; `post` is the
transport oracle. -/
def send_telegram_message (chatId : String) (post : TgPayload → PostOutcome)
    (message : String) (parse_mode : Option String) : List TgPayload × SendOutcome :=
  let p1 : TgPayload :=
    ⟨chatId, message, if pyTruthy parse_mode then parse_mode else none⟩
  match post p1 with
  | .ok => ([p1], .returned true)
  | .reqExn =>
    if pyTruthy parse_mode then
      let p2 : TgPayload := ⟨chatId, message, none⟩
      match post p2 with
      | .ok => ([p1, p2], .returned true)
      | _ => ([p1, p2], .returned false)
    else ([p1], .returned false)
  | .otherExn => ([p1], .raised)

/-- `format_offline_message` (lines 107..126). -/
def format_offline_message (device_id reason timestamp : String) : String :=
  "🔴 <b>Device Offline Alert</b>\n\n" ++
  "<b>Device:</b> <code>" ++ device_id ++ "</code>\n" ++
  "<b>Status:</b> Offline\n" ++
  "<b>Reason:</b> " ++ reason ++ "\n" ++
  "<b>Time:</b> " ++ timestamp ++ "\n\n" ++
  "⚠️ The device has lost connection unexpectedly."

/-- `format_online_message` (lines 129..146). -/
def format_online_message (device_id timestamp : String) : String :=
  "🟢 <b>Device Online</b>\n\n" ++
  "<b>Device:</b> <code>" ++ device_id ++ "</code>\n" ++
  "<b>Status:</b> Online\n" ++
  "<b>Time:</b> " ++ timestamp ++ "\n\n" ++
  "✅ The device has reconnected successfully."

/-- The branch `on_message` ends in, recorded with the values that
branch binds (the spec names these variants in its event table). -/
inductive ClassifiedEvent where
  | deviceOffline (deviceId reason : PyVal) (timestamp : String)
  | deviceOnline (deviceId : PyVal) (timestamp : String)
  | motionConfirmed (deviceId : PyVal) (timestamp : PyVal)
  | motionDetectedInitial (deviceId : PyVal) (timestamp : PyVal)
  | motionCleared (deviceId : PyVal)
  | unknownStatus (deviceId rawStatus : PyVal) (rawPayload : String)
  | heartbeat (deviceId rtcTime uptimeSec : PyVal)
  | malformedPayload (rawPayload : String)
  deriving DecidableEq

/-- How one run of the `on_message` callback ends. -/
inductive HOutcome where
  /-- The body ran to the end of the `try` without an exception. -/
  | ok
  /-- Caught by `except json.JSONDecodeError` (line 312). -/
  | jsonError
  /-- Caught by `except Exception` (line 314). -/
  | caught
  /-- `UnicodeDecodeError` from `msg.payload.decode` (line 216), which
  runs before the `try` and therefore escapes the handler. -/
  | uncaughtUnicode
  deriving DecidableEq

/-- Observable result of one `on_message` run: the branch taken (if
any), the calls made to `send_telegram_message` (message text and
`parse_mode` argument), the HTTP POSTs those calls made, and how the
run ended. -/
structure HandleResult where
  event : Option ClassifiedEvent
  sends : List (String × Option String)
  posts : List TgPayload
  outcome : HOutcome
  deriving DecidableEq

/-- Wraps one branch that sends a Telegram message: all call sites in
`on_message` use the default `parse_mode="HTML"`.  A non-Request
exception escaping `send_telegram_message` is caught by the handler
generic `except Exception`. -/
def sendWrap (cfg : Config) (post : TgPayload → PostOutcome)
    (ev : ClassifiedEvent) (message : String) : HandleResult :=
  let r := send_telegram_message cfg.chatId post message (some "HTML")
  ⟨some ev, [(message, some "HTML")], r.1,
    match r.2 with
    | .raised => .caught
    | .returned _ => .ok⟩

/-- The status-topic dispatch of `on_message` (lines 226..297): exact
string comparison of `data.get("status", "Unknown")` against the five
known statuses, in source order, with the catch-all `else`. -/
def handleStatus (cfg : Config) (post : TgPayload → PostOutcome)
    (now payload : String) (fields : List (String × PyVal)) : HandleResult :=
  let device_id := pyGet fields "device_id" (.str "Unknown")
  let status := pyGet fields "status" (.str "Unknown")
  if pyEqStr status "offline" then
    let reason := pyGet fields "reason" (.str "unknown")
    sendWrap cfg post (.deviceOffline device_id reason now)
      (format_offline_message (pyStr device_id) (pyStr reason) now)
  else if pyEqStr status "online" ∧ cfg.notifyOnline then
    sendWrap cfg post (.deviceOnline device_id now)
      (format_online_message (pyStr device_id) now)
  else if pyEqStr status "Motion detection confirmed" then
    let device_timestamp := pyGet fields "timestamp" (.str now)
    sendWrap cfg post (.motionConfirmed device_id device_timestamp)
      ("🚨 <b>Motion Detection Alert</b>\n\n" ++
        "<b>Device:</b> <code>" ++ pyStr device_id ++ "</code>\n" ++
        "<b>Status:</b> Motion confirmed\n" ++
        "<b>Time:</b> " ++ pyStr device_timestamp ++ "\n\n" ++
        "⚠️ Unauthorized motion detected in monitored area!")
  else if pyEqStr status "No motion" then
    ⟨some (.motionCleared device_id), [], [], .ok⟩
  else if pyEqStr status "Motion detected" then
    let device_timestamp := pyGet fields "timestamp" (.str now)
    sendWrap cfg post (.motionDetectedInitial device_id device_timestamp)
      ("🟡 <b>Motion Detected</b>\n\n" ++
        "<b>Device:</b> <code>" ++ pyStr device_id ++ "</code>\n" ++
        "<b>Status:</b> Motion detected (awaiting confirmation)\n" ++
        "<b>Time:</b> " ++ pyStr device_timestamp ++ "\n\n" ++
        "Monitoring for continued movement...")
  else
    ⟨some (.unknownStatus device_id status payload), [], [], .ok⟩

/-- An inbound MQTT message: topic string and raw payload bytes. -/
structure RawMsg where
  topic : String
  payload : List Nat
  deriving DecidableEq

/-- The `on_message` callback (lines 211..315).  `jsonLoads` is the
`json.loads` oracle (`none` = `JSONDecodeError`), `post` the HTTP
oracle, `now` the formatted processing time from line 217.  Field
access (`data.get`) on a non-object raises `AttributeError`, which the
generic `except Exception` catches. -/
def on_message (cfg : Config) (jsonLoads : String → Option PyVal)
    (post : TgPayload → PostOutcome) (now : String) (msg : RawMsg) : HandleResult :=
  match utf8Decode msg.payload with
  | none => ⟨none, [], [], .uncaughtUnicode⟩
  | some payload =>
    match jsonLoads payload with
    | none => ⟨some (.malformedPayload payload), [], [], .jsonError⟩
    | some data =>
      if msg.topic = cfg.statusTopic then
        match data with
        | .obj fields => handleStatus cfg post now payload fields
        | _ => ⟨none, [], [], .caught⟩
      else if msg.topic = cfg.aliveTopic ∧ cfg.monitorAlive then
        match data with
        | .obj fields =>
          ⟨some (.heartbeat (pyGet fields "device_id" (.str "Unknown"))
              (pyGet fields "rtc_time" (.str "Unknown"))
              (pyGet fields "uptime_sec" (.int 0))), [], [], .ok⟩
        | _ => ⟨none, [], [], .caught⟩
      else ⟨none, [], [], .ok⟩

/-- The variants for which the spec promises no delivery call. -/
def isSuppressedEvent : Option ClassifiedEvent → Bool
  | some (.motionCleared _) => true
  | some (.unknownStatus _ _ _) => true
  | some (.heartbeat _ _ _) => true
  | some (.malformedPayload _) => true
  | _ => false

/-- How far the startup validation of `main` gets. -/
inductive MainResult where
  | configErrorToken
  | configErrorChat
  | proceededToConnect
  deriving DecidableEq

/-- The startup validation of `main` (lines 330..339): the environment
variables are `Option String` (`None` when unset); `main` returns early
only when a value equals its placeholder string, otherwise it goes on
to create the client and connect. -/
def mainStartup (TELEGRAM_BOT_TOKEN TELEGRAM_CHAT_ID : Option String) : MainResult :=
  if TELEGRAM_BOT_TOKEN = some "YOUR_BOT_TOKEN_HERE" then .configErrorToken
  else if TELEGRAM_CHAT_ID = some "YOUR_CHAT_ID_HERE" then .configErrorChat
  else .proceededToConnect

/-- Whether a decoded JSON value is an object (a Python dict). -/
def PyVal.isObj : PyVal → Bool
  | .obj _ => true
  | _ => false

/-- A concrete configuration with the source constant values of
`MONITOR_ALIVE` and `NOTIFY_ONLINE`, used to instantiate theorems. -/
def testConfig : Config := ⟨"st", "al", true, true, "chat"⟩

/-- The same configuration with online notifications turned off. -/
def testConfigNoOnline : Config := ⟨"st", "al", true, false, "chat"⟩

/-- A concrete `json.loads` oracle used to instantiate theorems. -/
def testLoads : String → Option PyVal := fun s =>
  if s = "OFF" then
    some (.obj [("device_id", .str "s1"), ("status", .str "offline"),
      ("reason", .str "power loss"), ("timestamp", .str "1999-01-01 00:00:00")])
  else if s = "ON" then some (.obj [("status", .str "online")])
  else if s = "NUM" then some (.int 5)
  else if s = "NOSTATUS" then some (.obj [("device_id", .str "d7")])
  else if s = "BOGUS" then
    some (.obj [("device_id", .str "x"), ("status", .str "Bogus")])
  else if s = "MOT" then
    some (.obj [("device_id", .str "cam"),
      ("status", .str "Motion detection confirmed"),
      ("timestamp", .str "2021-05-05 05:05:05")])
  else none

/-- A transport oracle on which every POST succeeds. -/
def postAlwaysOk : TgPayload → PostOutcome := fun _ => .ok

/-- A transport oracle on which every POST fails with a
`RequestException`. -/
def postAlwaysReqExn : TgPayload → PostOutcome := fun _ => .reqExn

/-- A transport oracle that rejects rich-text POSTs and accepts the
plain-text fallback. -/
def postHtmlFails : TgPayload → PostOutcome := fun p =>
  if p.parse_mode = some "HTML" then .reqExn else .ok

end MqttTelegramBridge

namespace MqttTelegramBridge

set_option maxRecDepth 100000

/-- `pyEqStr` holds exactly for the identical string value. -/
lemma pyEqStr_true_iff (v : PyVal) (s : String) : pyEqStr v s = true ↔ v = .str s := by
  cases v <;> simp [pyEqStr]

/-- A `sendWrap` result never ends in the uncaught-decode outcome. -/
lemma sendWrap_outcome_ne (cfg : Config) (post : TgPayload → PostOutcome)
    (ev : ClassifiedEvent) (message : String) :
    (sendWrap cfg post ev message).outcome ≠ .uncaughtUnicode := by
  simp only [sendWrap]
  cases h : (send_telegram_message cfg.chatId post message (some "HTML")).2 <;>
    simp [h]

/-- No branch of the status dispatch ends in the uncaught-decode
outcome. -/
lemma handleStatus_outcome_ne (cfg : Config) (post : TgPayload → PostOutcome)
    (now payload : String) (fields : List (String × PyVal)) :
    (handleStatus cfg post now payload fields).outcome ≠ .uncaughtUnicode := by
  simp only [handleStatus]
  split_ifs <;> first
    | exact sendWrap_outcome_ne _ _ _ _
    | simp

/-- Claim C1: for every formatted (rich-text) message whose first
delivery attempt fails with a transport-level error
(`RequestException`), `send_telegram_message` makes exactly one retry
with the `parse_mode` key removed and the same text, returns `false`
without raising when the retry also fails, and makes exactly one
attempt returning `true` when the first attempt succeeds. -/
theorem C1_formatted_retry_policy (chatId : String) (post : TgPayload → PostOutcome)
    (message : String) (parse_mode : Option String)
    (hfmt : pyTruthy parse_mode = true) :
    (post ⟨chatId, message, parse_mode⟩ = .ok →
      send_telegram_message chatId post message parse_mode =
        ([⟨chatId, message, parse_mode⟩], .returned true)) ∧
    (post ⟨chatId, message, parse_mode⟩ = .reqExn →
      post ⟨chatId, message, none⟩ = .ok →
      send_telegram_message chatId post message parse_mode =
        ([⟨chatId, message, parse_mode⟩, ⟨chatId, message, none⟩], .returned true)) ∧
    (post ⟨chatId, message, parse_mode⟩ = .reqExn →
      post ⟨chatId, message, none⟩ ≠ .ok →
      send_telegram_message chatId post message parse_mode =
        ([⟨chatId, message, parse_mode⟩, ⟨chatId, message, none⟩], .returned false)) := by
  refine ⟨fun h1 => ?_, fun h1 h2 => ?_, fun h1 h2 => ?_⟩
  · simp [send_telegram_message, hfmt, h1]
  · simp [send_telegram_message, hfmt, h1, h2]
  · cases h3 : post ⟨chatId, message, none⟩ <;>
      simp_all [send_telegram_message, hfmt]

/-- Witness for C1: on a transport that rejects rich text and accepts
plain text, the formatted message is retried once without formatting
and delivered. -/
theorem C1_witness :
    send_telegram_message "chat" postHtmlFails "hello" (some "HTML") =
      ([⟨"chat", "hello", some "HTML"⟩, ⟨"chat", "hello", none⟩], .returned true) :=
  (C1_formatted_retry_policy "chat" postHtmlFails "hello" (some "HTML")
    (by decide)).2.1 (by decide) (by decide)

/-- Claim C6: a payload that does not parse as JSON is classified
`MalformedPayload` regardless of topic, the failure is caught by the
`JSONDecodeError` handler, and no delivery call is made. -/
theorem C6_malformed_payload (cfg : Config) (jsonLoads : String → Option PyVal)
    (post : TgPayload → PostOutcome) (now : String) (msg : RawMsg) (p : String)
    (hdec : utf8Decode msg.payload = some p)
    (hload : jsonLoads p = none) :
    on_message cfg jsonLoads post now msg =
      ⟨some (.malformedPayload p), [], [], .jsonError⟩ := by
  simp [on_message, hdec, hload]

/-- Witness for C6: the payload `X` is not JSON; the handler records
`MalformedPayload` and makes no delivery call, on a topic outside the
subscription set. -/
theorem C6_witness :
    on_message testConfig testLoads postAlwaysOk "NOW" ⟨"elsewhere", [88]⟩ =
      ⟨some (.malformedPayload "X"), [], [], .jsonError⟩ :=
  C6_malformed_payload testConfig testLoads postAlwaysOk "NOW" ⟨"elsewhere", [88]⟩
    "X" (by decide) (by decide)

/-- Claim C3 (amended): for every inbound message whose byte payload is
valid UTF-8, no exception escapes the `on_message` handler; the decode
step itself runs before the `try` block, so this guarantee cannot
cover invalid UTF-8 payloads. -/
theorem C3_no_escape_on_valid_utf8 (cfg : Config) (jsonLoads : String → Option PyVal)
    (post : TgPayload → PostOutcome) (now : String) (msg : RawMsg) (p : String)
    (hdec : utf8Decode msg.payload = some p) :
    (on_message cfg jsonLoads post now msg).outcome ≠ .uncaughtUnicode := by
  simp only [on_message, hdec]
  cases hl : jsonLoads p with
  | none => simp
  | some data =>
    by_cases ht : msg.topic = cfg.statusTopic
    · simp only [if_pos ht]
      cases data <;> first
        | exact handleStatus_outcome_ne _ _ _ _ _
        | simp
    · simp only [if_neg ht]
      by_cases ha : msg.topic = cfg.aliveTopic ∧ cfg.monitorAlive
      · simp only [if_pos ha]
        cases data <;> simp
      · simp only [if_neg ha]
        simp

/-- Witness for C3 (amended): a valid ASCII payload on the status topic
never ends in the uncaught outcome. -/
theorem C3_witness :
    (on_message testConfig testLoads postAlwaysOk "NOW" ⟨"st", [79, 70, 70]⟩).outcome ≠
      .uncaughtUnicode :=
  C3_no_escape_on_valid_utf8 testConfig testLoads postAlwaysOk "NOW"
    ⟨"st", [79, 70, 70]⟩ "OFF" (by decide)

/-- Counterexample to C3 as stated: the single byte 0xFF is not valid
UTF-8, so `msg.payload.decode("utf-8")` on line 216 — which runs before
the `try` block — raises `UnicodeDecodeError` out of the handler. -/
theorem C3_counterexample :
    (on_message testConfig testLoads postAlwaysOk "NOW" ⟨"st", [255]⟩).outcome =
      .uncaughtUnicode := by decide

/-- Claim C8 (code evaluated at the failing input): with
`TELEGRAM_BOT_TOKEN` unset in the environment (`None`), the placeholder
comparison on line 331 is false, so `main` proceeds to create the
client and connect instead of exiting; only the exact placeholder
strings are rejected. -/
theorem C8_unset_token_proceeds :
    mainStartup none (some "123456") = .proceededToConnect ∧
    mainStartup (some "YOUR_BOT_TOKEN_HERE") (some "123456") = .configErrorToken ∧
    mainStartup (some "t0k3n") (some "YOUR_CHAT_ID_HERE") = .configErrorChat := by
  decide

/-- On the status topic with a decoded JSON object, the handler runs the
status dispatch. -/
lemma on_message_status (cfg : Config) (jsonLoads : String → Option PyVal)
    (post : TgPayload → PostOutcome) (now : String) (msg : RawMsg)
    (p : String) (fields : List (String × PyVal))
    (hdec : utf8Decode msg.payload = some p)
    (hload : jsonLoads p = some (.obj fields))
    (htop : msg.topic = cfg.statusTopic) :
    on_message cfg jsonLoads post now msg = handleStatus cfg post now p fields := by
  simp [on_message, hdec, hload, htop]

/-- The `offline` branch of the dispatch, with its event values. -/
lemma handleStatus_event_offline (cfg : Config) (post : TgPayload → PostOutcome)
    (now payload : String) (fields : List (String × PyVal))
    (hst : pyGet fields "status" (.str "Unknown") = .str "offline") :
    (handleStatus cfg post now payload fields).event =
      some (.deviceOffline (pyGet fields "device_id" (.str "Unknown"))
        (pyGet fields "reason" (.str "unknown")) now) := by
  simp [handleStatus, hst, pyEqStr, sendWrap]

/-- The `online` branch with online notifications enabled. -/
lemma handleStatus_event_online (cfg : Config) (post : TgPayload → PostOutcome)
    (now payload : String) (fields : List (String × PyVal))
    (hon : cfg.notifyOnline = true)
    (hst : pyGet fields "status" (.str "Unknown") = .str "online") :
    (handleStatus cfg post now payload fields).event =
      some (.deviceOnline (pyGet fields "device_id" (.str "Unknown")) now) := by
  simp [handleStatus, hst, hon, pyEqStr, sendWrap]

/-- With online notifications disabled, an `online` status misses every
branch condition and lands in the catch-all. -/
lemma handleStatus_event_online_disabled (cfg : Config) (post : TgPayload → PostOutcome)
    (now payload : String) (fields : List (String × PyVal))
    (hon : cfg.notifyOnline = false)
    (hst : pyGet fields "status" (.str "Unknown") = .str "online") :
    (handleStatus cfg post now payload fields).event =
      some (.unknownStatus (pyGet fields "device_id" (.str "Unknown"))
        (.str "online") payload) := by
  simp [handleStatus, hst, hon, pyEqStr]

/-- The `Motion detection confirmed` branch, which reads the payload
`timestamp` field with the processing time as default. -/
lemma handleStatus_event_motionConfirmed (cfg : Config) (post : TgPayload → PostOutcome)
    (now payload : String) (fields : List (String × PyVal))
    (hst : pyGet fields "status" (.str "Unknown") = .str "Motion detection confirmed") :
    (handleStatus cfg post now payload fields).event =
      some (.motionConfirmed (pyGet fields "device_id" (.str "Unknown"))
        (pyGet fields "timestamp" (.str now))) := by
  simp [handleStatus, hst, pyEqStr, sendWrap]

/-- The `Motion detected` branch, which reads the payload `timestamp`
field with the processing time as default. -/
lemma handleStatus_event_motionDetected (cfg : Config) (post : TgPayload → PostOutcome)
    (now payload : String) (fields : List (String × PyVal))
    (hst : pyGet fields "status" (.str "Unknown") = .str "Motion detected") :
    (handleStatus cfg post now payload fields).event =
      some (.motionDetectedInitial (pyGet fields "device_id" (.str "Unknown"))
        (pyGet fields "timestamp" (.str now))) := by
  simp [handleStatus, hst, pyEqStr, sendWrap]

/-- The `No motion` branch. -/
lemma handleStatus_event_noMotion (cfg : Config) (post : TgPayload → PostOutcome)
    (now payload : String) (fields : List (String × PyVal))
    (hst : pyGet fields "status" (.str "Unknown") = .str "No motion") :
    (handleStatus cfg post now payload fields).event =
      some (.motionCleared (pyGet fields "device_id" (.str "Unknown"))) := by
  simp [handleStatus, hst, pyEqStr]

/-- Any status value equal to none of the five known strings lands in
the catch-all, which keeps the raw status value and the raw payload. -/
lemma handleStatus_event_unknown (cfg : Config) (post : TgPayload → PostOutcome)
    (now payload : String) (fields : List (String × PyVal))
    (h1 : pyGet fields "status" (.str "Unknown") ≠ .str "offline")
    (h2 : pyGet fields "status" (.str "Unknown") ≠ .str "online")
    (h3 : pyGet fields "status" (.str "Unknown") ≠ .str "Motion detection confirmed")
    (h4 : pyGet fields "status" (.str "Unknown") ≠ .str "No motion")
    (h5 : pyGet fields "status" (.str "Unknown") ≠ .str "Motion detected") :
    (handleStatus cfg post now payload fields).event =
      some (.unknownStatus (pyGet fields "device_id" (.str "Unknown"))
        (pyGet fields "status" (.str "Unknown")) payload) := by
  simp [handleStatus, pyEqStr_true_iff, h1, h2, h3, h4, h5]

/-- Claim C2: for every payload that decodes and parses as a JSON
object on the status topic (with the source value of `NOTIFY_ONLINE`),
the dispatch is by case-sensitive full-string equality of the `status`
value with the five known strings, and every other status value —
including non-strings — falls through to the catch-all carrying the
raw status value and the full raw payload. -/
theorem C2_exact_status_dispatch (cfg : Config) (jsonLoads : String → Option PyVal)
    (post : TgPayload → PostOutcome) (now : String) (msg : RawMsg)
    (p : String) (fields : List (String × PyVal))
    (hon : cfg.notifyOnline = true)
    (hdec : utf8Decode msg.payload = some p)
    (hload : jsonLoads p = some (.obj fields))
    (htop : msg.topic = cfg.statusTopic) :
    (pyGet fields "status" (.str "Unknown") = .str "offline" →
      (on_message cfg jsonLoads post now msg).event =
        some (.deviceOffline (pyGet fields "device_id" (.str "Unknown"))
          (pyGet fields "reason" (.str "unknown")) now)) ∧
    (pyGet fields "status" (.str "Unknown") = .str "online" →
      (on_message cfg jsonLoads post now msg).event =
        some (.deviceOnline (pyGet fields "device_id" (.str "Unknown")) now)) ∧
    (pyGet fields "status" (.str "Unknown") = .str "Motion detection confirmed" →
      (on_message cfg jsonLoads post now msg).event =
        some (.motionConfirmed (pyGet fields "device_id" (.str "Unknown"))
          (pyGet fields "timestamp" (.str now)))) ∧
    (pyGet fields "status" (.str "Unknown") = .str "Motion detected" →
      (on_message cfg jsonLoads post now msg).event =
        some (.motionDetectedInitial (pyGet fields "device_id" (.str "Unknown"))
          (pyGet fields "timestamp" (.str now)))) ∧
    (pyGet fields "status" (.str "Unknown") = .str "No motion" →
      (on_message cfg jsonLoads post now msg).event =
        some (.motionCleared (pyGet fields "device_id" (.str "Unknown")))) ∧
    (pyGet fields "status" (.str "Unknown") ≠ .str "offline" →
      pyGet fields "status" (.str "Unknown") ≠ .str "online" →
      pyGet fields "status" (.str "Unknown") ≠ .str "Motion detection confirmed" →
      pyGet fields "status" (.str "Unknown") ≠ .str "Motion detected" →
      pyGet fields "status" (.str "Unknown") ≠ .str "No motion" →
      (on_message cfg jsonLoads post now msg).event =
        some (.unknownStatus (pyGet fields "device_id" (.str "Unknown"))
          (pyGet fields "status" (.str "Unknown")) p)) := by
  rw [on_message_status cfg jsonLoads post now msg p fields hdec hload htop]
  exact ⟨handleStatus_event_offline cfg post now p fields,
    handleStatus_event_online cfg post now p fields hon,
    handleStatus_event_motionConfirmed cfg post now p fields,
    handleStatus_event_motionDetected cfg post now p fields,
    handleStatus_event_noMotion cfg post now p fields,
    fun h1 h2 h3 h4 h5 =>
      handleStatus_event_unknown cfg post now p fields h1 h2 h3 h5 h4⟩

/-- Witness for C2: the scenario payload with status `offline` is
classified `DeviceOffline` with the payload device id and reason. -/
theorem C2_witness :
    (on_message testConfig testLoads postAlwaysOk "NOW" ⟨"st", [79, 70, 70]⟩).event =
      some (.deviceOffline (.str "s1") (.str "power loss") "NOW") :=
  ((C2_exact_status_dispatch testConfig testLoads postAlwaysOk "NOW"
      ⟨"st", [79, 70, 70]⟩ "OFF"
      [("device_id", .str "s1"), ("status", .str "offline"),
        ("reason", .str "power loss"), ("timestamp", .str "1999-01-01 00:00:00")]
      rfl (by decide) (by decide) rfl).1 (by decide)).trans (by decide)

/-- Claim C4 (amended): only the two motion variants read the event
timestamp from the payload `timestamp` field (present value used,
processing time as default); the offline and online branches always
use the caller-supplied processing time and ignore any payload
`timestamp` field. -/
theorem C4_timestamp_sources (cfg : Config) (jsonLoads : String → Option PyVal)
    (post : TgPayload → PostOutcome) (now : String) (msg : RawMsg)
    (p : String) (fields : List (String × PyVal))
    (hon : cfg.notifyOnline = true)
    (hdec : utf8Decode msg.payload = some p)
    (hload : jsonLoads p = some (.obj fields))
    (htop : msg.topic = cfg.statusTopic) :
    (pyGet fields "status" (.str "Unknown") = .str "offline" →
      (on_message cfg jsonLoads post now msg).event =
        some (.deviceOffline (pyGet fields "device_id" (.str "Unknown"))
          (pyGet fields "reason" (.str "unknown")) now)) ∧
    (pyGet fields "status" (.str "Unknown") = .str "online" →
      (on_message cfg jsonLoads post now msg).event =
        some (.deviceOnline (pyGet fields "device_id" (.str "Unknown")) now)) ∧
    (pyGet fields "status" (.str "Unknown") = .str "Motion detection confirmed" →
      (on_message cfg jsonLoads post now msg).event =
        some (.motionConfirmed (pyGet fields "device_id" (.str "Unknown"))
          (pyGet fields "timestamp" (.str now)))) ∧
    (pyGet fields "status" (.str "Unknown") = .str "Motion detected" →
      (on_message cfg jsonLoads post now msg).event =
        some (.motionDetectedInitial (pyGet fields "device_id" (.str "Unknown"))
          (pyGet fields "timestamp" (.str now)))) ∧
    (List.find? (fun kv => kv.1 = "timestamp") fields = none →
      pyGet fields "timestamp" (.str now) = .str now) ∧
    (∀ kv, List.find? (fun kv => kv.1 = "timestamp") fields = some kv →
      pyGet fields "timestamp" (.str now) = kv.2) := by
  rw [on_message_status cfg jsonLoads post now msg p fields hdec hload htop]
  refine ⟨handleStatus_event_offline cfg post now p fields,
    handleStatus_event_online cfg post now p fields hon,
    handleStatus_event_motionConfirmed cfg post now p fields,
    handleStatus_event_motionDetected cfg post now p fields,
    fun h => by simp [pyGet, h],
    fun kv h => by simp [pyGet, h]⟩

/-- Witness for C4 (amended): a confirmed-motion payload carrying a
`timestamp` field yields an event with the payload timestamp. -/
theorem C4_witness :
    (on_message testConfig testLoads postAlwaysOk "NOW" ⟨"st", [77, 79, 84]⟩).event =
      some (.motionConfirmed (.str "cam") (.str "2021-05-05 05:05:05")) :=
  ((C4_timestamp_sources testConfig testLoads postAlwaysOk "NOW"
      ⟨"st", [77, 79, 84]⟩ "MOT"
      [("device_id", .str "cam"), ("status", .str "Motion detection confirmed"),
        ("timestamp", .str "2021-05-05 05:05:05")]
      rfl (by decide) (by decide) rfl).2.2.1 (by decide)).trans (by decide)

/-- Counterexample to C4 as stated: an offline payload carries the
timestamp `1999-01-01 00:00:00`, yet the event produced uses the
caller-supplied processing time — the offline branch never reads the
payload `timestamp` field. -/
theorem C4_counterexample :
    (on_message testConfig testLoads postAlwaysOk "2020-02-02 10:00:00"
        ⟨"st", [79, 70, 70]⟩).event =
      some (.deviceOffline (.str "s1") (.str "power loss") "2020-02-02 10:00:00") ∧
    (on_message testConfig testLoads postAlwaysOk "2020-02-02 10:00:00"
        ⟨"st", [79, 70, 70]⟩).event ≠
      some (.deviceOffline (.str "s1") (.str "power loss") "1999-01-01 00:00:00") := by
  decide

/-- Claim C5 (amended): with the online-notification flag enabled (its
hardcoded source value) an `online` status classifies as
`DeviceOnline`; with the flag disabled the combined branch condition
fails and the same message falls through to the `UnknownStatus`
catch-all — the suppression is by reclassification inside the
dispatch, not by a separate notifier decision. -/
theorem C5_online_flag_reclassifies (cfg : Config) (jsonLoads : String → Option PyVal)
    (post : TgPayload → PostOutcome) (now : String) (msg : RawMsg)
    (p : String) (fields : List (String × PyVal))
    (hdec : utf8Decode msg.payload = some p)
    (hload : jsonLoads p = some (.obj fields))
    (htop : msg.topic = cfg.statusTopic)
    (hst : pyGet fields "status" (.str "Unknown") = .str "online") :
    (cfg.notifyOnline = true →
      (on_message cfg jsonLoads post now msg).event =
        some (.deviceOnline (pyGet fields "device_id" (.str "Unknown")) now)) ∧
    (cfg.notifyOnline = false →
      (on_message cfg jsonLoads post now msg).event =
        some (.unknownStatus (pyGet fields "device_id" (.str "Unknown"))
          (.str "online") p)) := by
  rw [on_message_status cfg jsonLoads post now msg p fields hdec hload htop]
  exact ⟨fun hon => handleStatus_event_online cfg post now p fields hon hst,
    fun hon => handleStatus_event_online_disabled cfg post now p fields hon hst⟩

/-- Witness for C5 (amended): with the flag enabled, status `online`
classifies as `DeviceOnline`. -/
theorem C5_witness :
    (on_message testConfig testLoads postAlwaysOk "NOW" ⟨"st", [79, 78]⟩).event =
      some (.deviceOnline (.str "Unknown") "NOW") :=
  ((C5_online_flag_reclassifies testConfig testLoads postAlwaysOk "NOW"
      ⟨"st", [79, 78]⟩ "ON" [("status", .str "online")]
      (by decide) (by decide) rfl (by decide)).1 rfl).trans (by decide)

/-- Counterexample to C5 as stated: with the online-notification flag
disabled, status `online` is reclassified to the `UnknownStatus`
catch-all rather than `DeviceOnline`. -/
theorem C5_counterexample :
    (on_message testConfigNoOnline testLoads postAlwaysOk "NOW"
        ⟨"st", [79, 78]⟩).event =
      some (.unknownStatus (.str "Unknown") (.str "online") "ON") ∧
    (on_message testConfigNoOnline testLoads postAlwaysOk "NOW"
        ⟨"st", [79, 78]⟩).event ≠
      some (.deviceOnline (.str "Unknown") "NOW") := by
  decide

/-- Claim C9: a status-topic JSON object with no `status` field
defaults to the string `Unknown`, which matches no known status, so
the message is classified `UnknownStatus` — never `MalformedPayload` —
and no delivery call is made. -/
theorem C9_missing_status_defaults_unknown (cfg : Config)
    (jsonLoads : String → Option PyVal) (post : TgPayload → PostOutcome)
    (now : String) (msg : RawMsg) (p : String) (fields : List (String × PyVal))
    (hdec : utf8Decode msg.payload = some p)
    (hload : jsonLoads p = some (.obj fields))
    (htop : msg.topic = cfg.statusTopic)
    (hmiss : List.find? (fun kv => kv.1 = "status") fields = none) :
    on_message cfg jsonLoads post now msg =
      ⟨some (.unknownStatus (pyGet fields "device_id" (.str "Unknown"))
        (.str "Unknown") p), [], [], .ok⟩ := by
  have hst : pyGet fields "status" (.str "Unknown") = .str "Unknown" := by
    simp [pyGet, hmiss]
  rw [on_message_status cfg jsonLoads post now msg p fields hdec hload htop]
  simp [handleStatus, hst, pyEqStr]

/-- Witness for C9: an object payload with only a device id is
classified `UnknownStatus` with status string `Unknown` and makes no
delivery call. -/
theorem C9_witness :
    on_message testConfig testLoads postAlwaysOk "NOW"
        ⟨"st", [78, 79, 83, 84, 65, 84, 85, 83]⟩ =
      ⟨some (.unknownStatus (.str "d7") (.str "Unknown") "NOSTATUS"),
        [], [], .ok⟩ :=
  (C9_missing_status_defaults_unknown testConfig testLoads postAlwaysOk "NOW"
      ⟨"st", [78, 79, 83, 84, 65, 84, 85, 83]⟩ "NOSTATUS"
      [("device_id", .str "d7")]
      (by decide) (by decide) rfl (by decide)).trans (by decide)

/-- Claim C10: a payload that parses as JSON but not as an object,
arriving on the status topic or (with heartbeat monitoring on) the
alive topic, produces no classification at all: the field access
raises, the generic `except Exception` catches it, and no delivery
call is made. -/
theorem C10_nonobject_caught (cfg : Config) (jsonLoads : String → Option PyVal)
    (post : TgPayload → PostOutcome) (now : String) (msg : RawMsg)
    (p : String) (v : PyVal)
    (hdec : utf8Decode msg.payload = some p)
    (hload : jsonLoads p = some v)
    (hobj : v.isObj = false)
    (htop : msg.topic = cfg.statusTopic ∨
      (msg.topic = cfg.aliveTopic ∧ cfg.monitorAlive = true)) :
    on_message cfg jsonLoads post now msg = ⟨none, [], [], .caught⟩ := by
  simp only [on_message, hdec, hload]
  by_cases ht : msg.topic = cfg.statusTopic
  · simp only [if_pos ht]
    cases v <;> simp_all [PyVal.isObj]
  · rcases htop with h | ⟨ha, hm⟩
    · exact absurd h ht
    · have hcond : msg.topic = cfg.aliveTopic ∧ cfg.monitorAlive = true := ⟨ha, hm⟩
      simp only [if_neg ht, if_pos hcond]
      cases v <;> simp_all [PyVal.isObj]

/-- Witness for C10: the JSON number 5 on the status topic ends in the
caught outcome with no event and no delivery call. -/
theorem C10_witness :
    on_message testConfig testLoads postAlwaysOk "NOW" ⟨"st", [78, 85, 77]⟩ =
      ⟨none, [], [], .caught⟩ :=
  C10_nonobject_caught testConfig testLoads postAlwaysOk "NOW"
    ⟨"st", [78, 85, 77]⟩ "NUM" (.int 5)
    (by decide) (by decide) (by decide) (Or.inl rfl)

/-- The status branches that make no delivery call do make none. -/
lemma handleStatus_suppressed (cfg : Config) (post : TgPayload → PostOutcome)
    (now payload : String) (fields : List (String × PyVal))
    (h : isSuppressedEvent (handleStatus cfg post now payload fields).event = true) :
    (handleStatus cfg post now payload fields).sends = [] ∧
    (handleStatus cfg post now payload fields).posts = [] := by
  simp only [handleStatus] at h ⊢
  split_ifs at h ⊢ <;> simp_all [sendWrap, isSuppressedEvent]

/-- Claim C7: whenever a message is classified `MotionCleared`,
`UnknownStatus`, `Heartbeat` or `MalformedPayload`, the handler makes
no call to `send_telegram_message` and no HTTP POST. -/
theorem C7_suppressed_variants_no_delivery (cfg : Config)
    (jsonLoads : String → Option PyVal) (post : TgPayload → PostOutcome)
    (now : String) (msg : RawMsg)
    (h : isSuppressedEvent (on_message cfg jsonLoads post now msg).event = true) :
    (on_message cfg jsonLoads post now msg).sends = [] ∧
    (on_message cfg jsonLoads post now msg).posts = [] := by
  cases hdec : utf8Decode msg.payload with
  | none => simp [on_message, hdec, isSuppressedEvent] at h
  | some p =>
    cases hl : jsonLoads p with
    | none => simp [on_message, hdec, hl]
    | some data =>
      simp only [on_message, hdec, hl] at h ⊢
      by_cases ht : msg.topic = cfg.statusTopic
      · simp only [if_pos ht] at h ⊢
        cases data <;> first
          | exact handleStatus_suppressed _ _ _ _ _ h
          | simp
      · simp only [if_neg ht] at h ⊢
        by_cases ha : msg.topic = cfg.aliveTopic ∧ cfg.monitorAlive = true
        · simp only [if_pos ha] at h ⊢
          cases data <;> simp
        · simp only [if_neg ha] at h ⊢
          simp

/-- Witness for C7: the scenario payload with the unrecognized status
`Bogus` triggers no delivery call. -/
theorem C7_witness :
    (on_message testConfig testLoads postAlwaysOk "NOW"
      ⟨"st", [66, 79, 71, 85, 83]⟩).sends = [] ∧
    (on_message testConfig testLoads postAlwaysOk "NOW"
      ⟨"st", [66, 79, 71, 85, 83]⟩).posts = [] :=
  C7_suppressed_variants_no_delivery testConfig testLoads postAlwaysOk "NOW"
    ⟨"st", [66, 79, 71, 85, 83]⟩ (by decide)

end MqttTelegramBridge
